import Mathlib

/-!
Shallow embedding of `src/monitor.py` (OzzyWorks/crash-monitor), a market
crash monitoring script, together with theorems settling the spec claims.

Modelling conventions:
* Python floats are modelled as rationals (`ℚ`); `round(x, 2)` is modelled
  as exact decimal rounding to two places with ties to even (Python's
  `round` semantics on exact values).
* The persisted state file is modelled by `FileState`: absent, corrupt
  (present but not parseable JSON), or holding a parsed JSON value.
  The Python `json.dump` / `json.load` pair is treated as the identity on
  JSON values (its standard-library contract); `save_state` below models
  the successful write.
* Market data (`Dict[str, Dict[str, float]]` built by `get_market_data`
  with the fixed keys `nasdaq`, `sp500`, `vix`) is modelled by the record
  `MarketData` with one optional entry per symbol, each entry carrying the
  fields the fetcher stores for it.
* `main` is modelled as a pure function of its external inputs (webhook
  environment variable, fetched market data, state-file contents, current
  time) returning the run's observable effects: exit code, whether the
  market fetch is reached, the ordered list of Slack notifications posted,
  and the final state file. Notifications are recorded structurally as
  which template was invoked with which arguments.
-/

namespace Monitor

/-- JSON values, as produced by Python's `json.load`. Objects are ordered
association lists (Python dicts preserve insertion order). -/
inductive Json where
  | null : Json
  | bool (b : Bool) : Json
  | num (q : ℚ) : Json
  | str (s : String) : Json
  | arr (xs : List Json) : Json
  | obj (kvs : List (String × Json)) : Json

/-- Lookup of a key in an ordered association list (first match wins),
modelling Python `dict` access on a dict with unique keys. -/
def getPairs (l : List (String × Json)) (k : String) : Option Json :=
  match l with
  | [] => none
  | (k1, v1) :: rest => if k1 = k then some v1 else getPairs rest k

/-- Update of a key in an ordered association list: replace the first
binding of `k`, or append `(k, v)` at the end, modelling Python
`d[k] = v` on a dict. -/
def setPairs (l : List (String × Json)) (k : String) (v : Json) :
    List (String × Json) :=
  match l with
  | [] => [(k, v)]
  | (k1, v1) :: rest =>
      if k1 = k then (k, v) :: rest else (k1, v1) :: setPairs rest k v

/-- Python `d.get(k)` on a JSON object; `none` on a missing key.
(Python raises on non-dict receivers; the embedding is only applied to
objects.) -/
def Json.get (j : Json) (k : String) : Option Json :=
  match j with
  | .obj kvs => getPairs kvs k
  | _ => none

/-- Python `d[k] = v` on a JSON object (other values returned unchanged;
the embedding is only applied to objects). -/
def Json.setKey (j : Json) (k : String) (v : Json) : Json :=
  match j with
  | .obj kvs => .obj (setPairs kvs k v)
  | _ => j

/-- Python truthiness of a JSON value: `None`, `False`, `0`, `""`, `[]`
and `{}` are falsy, everything else truthy. -/
def Json.truthy (j : Json) : Bool :=
  match j with
  | .null => false
  | .bool b => b
  | .num q => q ≠ 0
  | .str s => s ≠ ""
  | .arr xs => !xs.isEmpty
  | .obj kvs => !kvs.isEmpty

/-- The contents of the state file as seen by one run: missing, present
but not parseable as JSON, or parseable to a JSON value. -/
inductive FileState where
  | absent : FileState
  | corrupt : FileState
  | content (j : Json) : FileState

-- 判定基準 (thresholds from monitor.py lines 29-31)

def CRASH_THRESHOLD_MAJOR : ℚ := -20.0

def CRASH_THRESHOLD_MINOR : ℚ := -15.0

def VIX_THRESHOLD : ℚ := 30.0

/-- Entry stored by `get_market_data` for a non-VIX symbol
(`symbol`, `current`, `high_52w`, `drawdown`). The string `symbol` field
plays no role in any claim and is omitted. -/
structure IndexEntry where
  current : ℚ
  high_52w : ℚ
  drawdown : ℚ
  deriving DecidableEq, Repr

/-- Entry stored by `get_market_data` for the VIX symbol
(`symbol`, `current`, `value`). -/
structure VixEntry where
  current : ℚ
  value : ℚ
  deriving DecidableEq, Repr

/-- The dictionary returned by `get_market_data`: for each of the three
fixed symbols, its entry when the fetch succeeded, `none` when the symbol
was skipped. -/
structure MarketData where
  nasdaq : Option IndexEntry
  sp500 : Option IndexEntry
  vix : Option VixEntry
  deriving DecidableEq, Repr

/-- Python `not data` on the result dictionary: true exactly when every
symbol was skipped. -/
def MarketData.isEmpty (d : MarketData) : Bool :=
  d.nasdaq.isNone && d.sp500.isNone && d.vix.isNone

/-- Rounding of a rational to the nearest integer with ties to even,
Python's `round` on exact values. -/
def round_half_even (q : ℚ) : ℤ :=
  if q - Int.floor q < 1/2 then Int.floor q
  else if 1/2 < q - Int.floor q then Int.floor q + 1
  else if Int.floor q % 2 = 0 then Int.floor q else Int.floor q + 1

/-- Python `round(x, 2)`: round to two decimal places, ties to even. -/
def py_round2 (q : ℚ) : ℚ :=
  (round_half_even (q * 100) : ℚ) / 100

/-- The drawdown stored by `get_market_data` (monitor.py lines 80, 86):
`round(((current - high) / high) * 100, 2)`. -/
def compute_drawdown (current high_52w : ℚ) : ℚ :=
  py_round2 ((current - high_52w) / high_52w * 100)

/-- Trigger description for condition 1. In the source this is the
f-string on line 115 with `CRASH_THRESHOLD_MAJOR = -20.0` interpolated. -/
def trigger_major : String :=
  "NASDAQ100 が 52週高値比 -20.0% を超える下落に突入しました。"

/-- Trigger description for condition 2. In the source this is the
f-string on line 120 with `CRASH_THRESHOLD_MINOR = -15.0` and
`VIX_THRESHOLD = 30.0` interpolated. -/
def trigger_minor : String :=
  "NASDAQ100 が -15.0% 下落、かつ VIX指数が 30.0 を超えました。"

/-- `check_crash_condition` (monitor.py lines 96-123): returns
`(triggered, trigger description)`. Missing `nasdaq` or `vix` entry gives
`(false, none)`; otherwise condition 1 (drawdown ≤ −20) is checked first,
then condition 2 (drawdown ≤ −15 and VIX ≥ 30). -/
def check_crash_condition (data : MarketData) : Bool × Option String :=
  match data.nasdaq, data.vix with
  | some nd, some vd =>
      if nd.drawdown ≤ CRASH_THRESHOLD_MAJOR then
        (true, some trigger_major)
      else if nd.drawdown ≤ CRASH_THRESHOLD_MINOR ∧ vd.value ≥ VIX_THRESHOLD then
        (true, some trigger_minor)
      else
        (false, none)
  | _, _ => (false, none)

/-- The default state record returned by `load_state` when the file is
absent or unreadable (monitor.py lines 134-138, 145-149). -/
def default_state : Json :=
  .obj [("is_crash", .bool false), ("first_detected", .null),
        ("last_checked", .null)]

/-- `load_state` (monitor.py lines 126-149): default record when the file
is absent or fails to parse, otherwise the parsed JSON value as-is (no
schema validation). -/
def load_state (file : FileState) : Json :=
  match file with
  | .absent => default_state
  | .corrupt => default_state
  | .content j => j

/-- `save_state` (monitor.py lines 152-163), successful-write case: the
state file afterwards parses back to the saved value (`json.dump` then
`json.load` is the identity on JSON values). -/
def save_state (state : Json) : FileState :=
  .content state

/-- The documented shape of the persisted record
(`{is_crash: bool, first_detected: string|null, last_checked: string|null}`). -/
structure CrashState where
  is_crash : Bool
  first_detected : Option String
  last_checked : Option String
  deriving DecidableEq, Repr

/-- Encoding of a documented-shape record as the JSON object the script
builds and saves. -/
def CrashState.toJson (s : CrashState) : Json :=
  .obj [("is_crash", .bool s.is_crash),
        ("first_detected", (s.first_detected.map Json.str).getD .null),
        ("last_checked", (s.last_checked.map Json.str).getD .null)]

/-- Reading a documented-shape record back out of a JSON value; `none`
when the value does not have exactly that shape. -/
def CrashState.ofJson (j : Json) : Option CrashState :=
  match j with
  | .obj [("is_crash", .bool b), ("first_detected", fd), ("last_checked", lc)] =>
      match fd, lc with
      | .null, .null => some ⟨b, none, none⟩
      | .null, .str l => some ⟨b, none, some l⟩
      | .str f, .null => some ⟨b, some f, none⟩
      | .str f, .str l => some ⟨b, some f, some l⟩
      | _, _ => none
  | _ => none

/-- One Slack notification, recorded as which template `main` invoked and
with which arguments (monitor.py lines 294-295 and 308-309). -/
inductive Message where
  | initialAlert (data : MarketData) (trigger : Option String) : Message
  | continuationAlert (data : MarketData) : Message
  deriving DecidableEq, Repr

/-- Observable effects of one run of `main`. -/
structure RunResult where
  exitCode : Nat
  fetched : Bool
  notifications : List Message
  finalFile : FileState

/-- Python `not webhook_url` for `os.environ.get('SLACK_WEBHOOK_URL')`:
true when the variable is unset or empty. -/
def webhookFalsy (w : Option String) : Bool :=
  match w with
  | none => true
  | some s => s = ""

/-- `main` (monitor.py lines 255-333) as a function of the run's external
inputs: the webhook environment variable, the market data the fetch would
return, the state-file contents, and the current time (`datetime.now()`
serialized with `isoformat`). Mirrors the source's control flow: exit 1
before fetching when the webhook variable is falsy; exit 1 when the data
dict is empty; otherwise evaluate, load the previous state, branch on
`(is_crash, prev_is_crash)`, send at most one notification and save the
new state. -/
def main (webhook : Option String) (data : MarketData) (file : FileState)
    (now : String) : RunResult :=
  if webhookFalsy webhook then
    { exitCode := 1, fetched := false, notifications := [], finalFile := file }
  else if data.isEmpty then
    { exitCode := 1, fetched := true, notifications := [], finalFile := file }
  else
    let res := check_crash_condition data
    let is_crash := res.1
    let trigger := res.2
    let prev_state := load_state file
    let prev_is_crash :=
      Json.truthy ((prev_state.get "is_crash").getD (.bool false))
    if is_crash then
      if !prev_is_crash then
        { exitCode := 0, fetched := true,
          notifications := [.initialAlert data trigger],
          finalFile := save_state (.obj
            [("is_crash", .bool true), ("first_detected", .str now),
             ("last_checked", .str now)]) }
      else
        { exitCode := 0, fetched := true,
          notifications := [.continuationAlert data],
          finalFile := save_state (prev_state.setKey "last_checked" (.str now)) }
    else
      { exitCode := 0, fetched := true, notifications := [],
        finalFile := save_state (.obj
          [("is_crash", .bool false), ("first_detected", .null),
           ("last_checked", .str now)]) }

/-! ### Helper lemmas -/

theorem getPairs_setPairs_self (l : List (String × Json)) (k : String) (v : Json) :
    getPairs (setPairs l k v) k = some v := by
  induction l with
  | nil => simp [setPairs, getPairs]
  | cons p rest ih =>
      obtain ⟨k1, v1⟩ := p
      by_cases h : k1 = k <;> simp [setPairs, getPairs, h, ih]

theorem getPairs_setPairs_other (l : List (String × Json)) (k k' : String) (v : Json)
    (hne : k' ≠ k) : getPairs (setPairs l k v) k' = getPairs l k' := by
  have hne2 : k ≠ k' := Ne.symm hne
  induction l with
  | nil => simp [setPairs, getPairs, hne2]
  | cons p rest ih =>
      obtain ⟨k1, v1⟩ := p
      by_cases h : k1 = k
      · subst h
        simp [setPairs, getPairs, hne2]
      · simp [setPairs, getPairs, h, ih]

/-- Exact value of `round_half_even` strictly between two half-integers. -/
theorem round_half_even_eq (x : ℚ) (n : ℤ) (hl : (n : ℚ) - 1/2 < x)
    (hu : x < (n : ℚ) + 1/2) : round_half_even x = n := by
  rcases le_or_lt (n : ℚ) x with h | h
  · have hf : Int.floor x = n := by
      rw [Int.floor_eq_iff]
      exact ⟨h, by linarith⟩
    unfold round_half_even
    rw [hf, if_pos]
    linarith
  · have hf : Int.floor x = n - 1 := by
      rw [Int.floor_eq_iff]
      constructor
      · push_cast
        linarith
      · push_cast
        linarith
    unfold round_half_even
    rw [hf, if_neg, if_pos]
    · omega
    · push_cast
      linarith
    · push_cast
      linarith

/-- Exact value of `py_round2` strictly between two rounding boundaries. -/
theorem py_round2_eq (r : ℚ) (n : ℤ) (hl : (n : ℚ) - 1/2 < r * 100)
    (hu : r * 100 < (n : ℚ) + 1/2) : py_round2 r = (n : ℚ) / 100 := by
  unfold py_round2
  rw [round_half_even_eq (r * 100) n hl hu]

theorem threshold_values :
    CRASH_THRESHOLD_MAJOR = -20 ∧ CRASH_THRESHOLD_MINOR = -15 ∧
    VIX_THRESHOLD = 30 := by
  norm_num [CRASH_THRESHOLD_MAJOR, CRASH_THRESHOLD_MINOR, VIX_THRESHOLD]

/-! ### Claims -/

/-- C1: for every market-data map containing both the `nasdaq` and `vix`
entries, `check_crash_condition` triggers iff the nasdaq drawdown is ≤ −20,
or it is ≤ −15 and the vix value is ≥ 30; in particular it always triggers
for drawdown ≤ −20, triggers for drawdown in (−20, −15] exactly when
vix ≥ 30, and never triggers for drawdown > −15. -/
theorem C1_evaluator_thresholds (n : IndexEntry) (s : Option IndexEntry)
    (v : VixEntry) :
    ((check_crash_condition ⟨some n, s, some v⟩).1 = true ↔
      (n.drawdown ≤ -20 ∨ (n.drawdown ≤ -15 ∧ 30 ≤ v.value))) ∧
    (n.drawdown ≤ -20 → (check_crash_condition ⟨some n, s, some v⟩).1 = true) ∧
    (-20 < n.drawdown → n.drawdown ≤ -15 →
      ((check_crash_condition ⟨some n, s, some v⟩).1 = true ↔ 30 ≤ v.value)) ∧
    (-15 < n.drawdown → (check_crash_condition ⟨some n, s, some v⟩).1 = false) := by
  obtain ⟨hM, hm, hv⟩ := threshold_values
  have hiff : (check_crash_condition ⟨some n, s, some v⟩).1 = true ↔
      (n.drawdown ≤ -20 ∨ (n.drawdown ≤ -15 ∧ 30 ≤ v.value)) := by
    simp only [check_crash_condition, hM, hm, hv]
    split_ifs with h1 h2 <;> simp_all
  refine ⟨hiff, ?_, ?_, ?_⟩
  · intro h
    exact hiff.mpr (Or.inl h)
  · intro hgt hle
    rw [hiff]
    constructor
    · rintro (h | ⟨-, h⟩)
      · linarith
      · exact h
    · intro h
      exact Or.inr ⟨hle, h⟩
  · intro hgt
    rw [← Bool.not_eq_true, hiff]
    rintro (h | ⟨h, -⟩) <;> linarith

/-- C1 witness: concrete instantiation at drawdown −16 and vix 31. -/
theorem C1_evaluator_thresholds_witness :
    (check_crash_condition ⟨some ⟨100, 125, -16⟩, none, some ⟨31, 31⟩⟩).1 = true := by
  have h := (C1_evaluator_thresholds ⟨100, 125, -16⟩ none ⟨31, 31⟩).1
  exact h.mpr (Or.inr ⟨by norm_num, by norm_num⟩)

/-- C5: whenever the nasdaq drawdown is ≤ −20, `check_crash_condition`
returns the condition-1 trigger description, which contains "52週高値比",
even when condition 2 also holds (condition 1 is checked first). -/
theorem C5_condition1_wins (n : IndexEntry) (s : Option IndexEntry)
    (v : VixEntry) (h : n.drawdown ≤ -20) :
    check_crash_condition ⟨some n, s, some v⟩ = (true, some trigger_major) ∧
    (∃ pre post, trigger_major = pre ++ "52週高値比" ++ post) := by
  obtain ⟨hM, -, -⟩ := threshold_values
  constructor
  · simp only [check_crash_condition]
    rw [if_pos (by rw [hM]; exact h)]
  · exact ⟨"NASDAQ100 が ", " -20.0% を超える下落に突入しました。", rfl⟩

/-- C5 witness: the spec scenario drawdown −22, vix 25 (condition 2 also
nearly relevant; here vix below 30 and still condition 1 fires). -/
theorem C5_condition1_wins_witness :
    check_crash_condition ⟨some ⟨100, 130, -22⟩, none, some ⟨25, 25⟩⟩
      = (true, some trigger_major) :=
  (C5_condition1_wins ⟨100, 130, -22⟩ none ⟨25, 25⟩ (by norm_num)).1

/-- C6: a market-data map lacking the `nasdaq` entry or lacking the `vix`
entry makes `check_crash_condition` return `(false, none)`. -/
theorem C6_missing_data (data : MarketData)
    (h : data.nasdaq = none ∨ data.vix = none) :
    check_crash_condition data = (false, none) := by
  obtain ⟨nd, sp, vd⟩ := data
  rcases h with h | h <;> simp only at h <;> subst h
  · cases vd <;> rfl
  · cases nd <;> rfl

/-- C6 witness: concrete map with only a vix entry. -/
theorem C6_missing_data_witness :
    check_crash_condition ⟨none, none, some ⟨35, 35⟩⟩ = (false, none) :=
  C6_missing_data ⟨none, none, some ⟨35, 35⟩⟩ (Or.inl rfl)

/-- C10 counterexample: the claim asserts that for any raw drawdown in the
interval (−20.005, −20.0) the exact drawdown is strictly greater than −20%;
at the interval point −20.003 the rounded value is −20.0 and condition 1
triggers, but the exact drawdown is NOT strictly greater than −20, so the
claim as stated is false. -/
theorem C10_interval_counterexample :
    ((-20.005 : ℚ) < -20 - 3/1000 ∧ (-20 - 3/1000 : ℚ) < -20) ∧
    py_round2 (-20 - 3/1000) = -20 ∧
    (check_crash_condition
      ⟨some ⟨100, 125, py_round2 (-20 - 3/1000)⟩, none, some ⟨25, 25⟩⟩).1 = true ∧
    ¬ (-20 : ℚ) < -20 - 3/1000 := by
  have h2 : py_round2 (-20 - 3/1000 : ℚ) = -20 := by
    have h := py_round2_eq (-20 - 3/1000) (-2000) (by push_cast; linarith)
      (by push_cast; linarith)
    rw [h]
    norm_num
  refine ⟨⟨by norm_num, by norm_num⟩, h2, ?_, by norm_num⟩
  simp only [check_crash_condition, h2]
  rw [if_pos]
  rw [threshold_values.1]

/-- C10 as amended: for any raw drawdown percentage in (−20.0, −19.995),
the fetcher's two-decimal rounding stores −20.0, so condition 1 triggers on
the stored value even though the exact drawdown is strictly greater
than −20%. -/
theorem C10_rounding_crosses_threshold (cur high : ℚ) (s : Option IndexEntry)
    (v : VixEntry) (h1 : -20 < (cur - high) / high * 100)
    (h2 : (cur - high) / high * 100 < -19.995) :
    compute_drawdown cur high = -20 ∧
    check_crash_condition ⟨some ⟨cur, high, compute_drawdown cur high⟩, s, some v⟩
      = (true, some trigger_major) := by
  have hr : compute_drawdown cur high = -20 := by
    unfold compute_drawdown
    have h := py_round2_eq ((cur - high) / high * 100) (-2000)
      (by push_cast; linarith) (by push_cast; linarith)
    rw [h]
    norm_num
  refine ⟨hr, ?_⟩
  simp only [check_crash_condition, hr]
  rw [if_pos]
  rw [threshold_values.1]

/-- C10 witness: current 80.004, 52-week high 100 gives the raw drawdown
−19.996%, inside (−20.0, −19.995); the stored drawdown is −20.0 and
condition 1 fires. -/
theorem C10_rounding_crosses_threshold_witness :
    compute_drawdown (80004/1000) 100 = -20 ∧
    check_crash_condition
      ⟨some ⟨80004/1000, 100, compute_drawdown (80004/1000) 100⟩, none,
        some ⟨25, 25⟩⟩ = (true, some trigger_major) :=
  C10_rounding_crosses_threshold (80004/1000) 100 none ⟨25, 25⟩
    (by norm_num) (by norm_num)

/-- C7: saving a record of the documented shape and loading it back (save
succeeding) yields an identical record. -/
theorem C7_save_load_roundtrip (s : CrashState) :
    load_state (save_state s.toJson) = s.toJson ∧
    CrashState.ofJson (load_state (save_state s.toJson)) = some s := by
  obtain ⟨b, fd, lc⟩ := s
  refine ⟨rfl, ?_⟩
  cases fd <;> cases lc <;> rfl

/-- C7 witness: round trip of a concrete crash record. -/
theorem C7_save_load_roundtrip_witness :
    CrashState.ofJson
      (load_state (save_state (CrashState.toJson
        ⟨true, some "2025-01-01T00:00:00", some "2025-01-02T00:00:00"⟩)))
      = some ⟨true, some "2025-01-01T00:00:00", some "2025-01-02T00:00:00"⟩ :=
  (C7_save_load_roundtrip
    ⟨true, some "2025-01-01T00:00:00", some "2025-01-02T00:00:00"⟩).2

/-- C9: `load_state` returns the default record on a missing or unparseable
file; any successfully parsed JSON value is returned as-is with no schema
check, so a parseable object lacking the documented fields (for example
one with only `is_crash`) is not defaulted, and a parsed value comes back
as the default only when it is itself the default. -/
theorem C9_load_state_default_and_asis :
    load_state .absent = default_state ∧
    load_state .corrupt = default_state ∧
    (∀ j : Json, load_state (.content j) = j) ∧
    (∀ j : Json, load_state (.content j) = default_state → j = default_state) ∧
    load_state (.content (.obj [("is_crash", .bool true)]))
      = .obj [("is_crash", .bool true)] ∧
    Json.obj [("is_crash", .bool true)] ≠ default_state := by
  refine ⟨rfl, rfl, fun j => rfl, fun j h => h, rfl, ?_⟩
  simp [default_state]

/-- Evaluation of `main` on a run that passes the webhook check and the
empty-data check, as a function of the evaluator result and the previous
crash flag. -/
theorem main_run_eq (webhook : Option String) (data : MarketData)
    (file : FileState) (now : String)
    (hw : webhookFalsy webhook = false) (hd : data.isEmpty = false) :
    main webhook data file now =
      if (check_crash_condition data).1 then
        if !(Json.truthy (((load_state file).get "is_crash").getD (.bool false))) then
          { exitCode := 0, fetched := true,
            notifications := [.initialAlert data (check_crash_condition data).2],
            finalFile := save_state (.obj [("is_crash", .bool true),
              ("first_detected", .str now), ("last_checked", .str now)]) }
        else
          { exitCode := 0, fetched := true,
            notifications := [.continuationAlert data],
            finalFile := save_state ((load_state file).setKey "last_checked" (.str now)) }
      else
        { exitCode := 0, fetched := true, notifications := [],
          finalFile := save_state (.obj [("is_crash", .bool false),
            ("first_detected", .null), ("last_checked", .str now)]) } := by
  simp [main, hw, hd]

/-- C2: on every run that reaches the state machine, a notification is sent
iff the evaluator triggered: previous state no-crash with a trigger sends
exactly one initial alert; previous state crash with a trigger sends
exactly one continuation alert; no trigger sends nothing and only updates
the state file (exit code 0). -/
theorem C2_notification_iff_trigger (webhook : Option String)
    (data : MarketData) (file : FileState) (now : String)
    (hw : webhookFalsy webhook = false) (hd : data.isEmpty = false)
    (_hobj : ∃ kvs, load_state file = Json.obj kvs) :
    ((main webhook data file now).notifications ≠ [] ↔
      (check_crash_condition data).1 = true) ∧
    ((check_crash_condition data).1 = true →
      Json.truthy (((load_state file).get "is_crash").getD (.bool false)) = false →
      (main webhook data file now).notifications
        = [.initialAlert data (check_crash_condition data).2]) ∧
    ((check_crash_condition data).1 = true →
      Json.truthy (((load_state file).get "is_crash").getD (.bool false)) = true →
      (main webhook data file now).notifications = [.continuationAlert data]) ∧
    ((check_crash_condition data).1 = false →
      (main webhook data file now).notifications = [] ∧
      (main webhook data file now).finalFile
        = save_state (.obj [("is_crash", .bool false), ("first_detected", .null),
            ("last_checked", .str now)]) ∧
      (main webhook data file now).exitCode = 0) := by
  rw [main_run_eq webhook data file now hw hd]
  rcases Bool.eq_false_or_eq_true (check_crash_condition data).1 with ht | ht
  · rcases Bool.eq_false_or_eq_true
      (Json.truthy (((load_state file).get "is_crash").getD (.bool false))) with
      hp | hp
    · refine ⟨?_, ?_, ?_, ?_⟩ <;> simp [ht, hp]
    · refine ⟨?_, ?_, ?_, ?_⟩ <;> simp [ht, hp]
  · refine ⟨?_, ?_, ?_, ?_⟩ <;> simp [ht]

/-- C2 witness: no-crash previous state (absent file), trigger at drawdown
−22 → exactly one initial alert. -/
theorem C2_notification_iff_trigger_witness :
    (main (some "hook") ⟨some ⟨100, 130, -22⟩, none, some ⟨25, 25⟩⟩ .absent
      "2025-01-01T00:00:00").notifications
      = [.initialAlert ⟨some ⟨100, 130, -22⟩, none, some ⟨25, 25⟩⟩
          (check_crash_condition ⟨some ⟨100, 130, -22⟩, none, some ⟨25, 25⟩⟩).2] := by
  have h := (C2_notification_iff_trigger (some "hook")
    ⟨some ⟨100, 130, -22⟩, none, some ⟨25, 25⟩⟩ .absent "2025-01-01T00:00:00"
    rfl rfl ⟨_, rfl⟩).2.1
  apply h
  · simp only [check_crash_condition]
    rw [if_pos]
    rw [threshold_values.1]
    norm_num
  · rfl

/-- C3: when the previous persisted state is a record with `is_crash` true
and the evaluator triggers, the persisted state at run end is the loaded
record with only `last_checked` replaced by the current time: `is_crash`,
`first_detected` and every other field keep their loaded values. -/
theorem C3_continuation_preserves_state (webhook : Option String)
    (data : MarketData) (kvs : List (String × Json)) (now : String)
    (hw : webhookFalsy webhook = false) (hd : data.isEmpty = false)
    (hc : getPairs kvs "is_crash" = some (.bool true))
    (ht : (check_crash_condition data).1 = true) :
    (main webhook data (.content (.obj kvs)) now).finalFile
      = save_state (.obj (setPairs kvs "last_checked" (.str now))) ∧
    getPairs (setPairs kvs "last_checked" (.str now)) "last_checked"
      = some (.str now) ∧
    getPairs (setPairs kvs "last_checked" (.str now)) "is_crash"
      = getPairs kvs "is_crash" ∧
    getPairs (setPairs kvs "last_checked" (.str now)) "first_detected"
      = getPairs kvs "first_detected" ∧
    (∀ k, k ≠ "last_checked" →
      getPairs (setPairs kvs "last_checked" (.str now)) k = getPairs kvs k) := by
  have hp : Json.truthy (((Json.obj kvs).get "is_crash").getD (.bool false))
      = true := by
    simp [Json.get, hc, Json.truthy]
  refine ⟨?_, getPairs_setPairs_self kvs "last_checked" (.str now),
    getPairs_setPairs_other kvs "last_checked" "is_crash" (.str now) (by simp),
    getPairs_setPairs_other kvs "last_checked" "first_detected" (.str now) (by simp),
    fun k hk => getPairs_setPairs_other kvs "last_checked" k (.str now) hk⟩
  rw [main_run_eq webhook data (.content (.obj kvs)) now hw hd]
  simp [ht, hp, load_state, Json.setKey]

/-- C3 witness: a crash record with an extra field is preserved except for
`last_checked`. -/
theorem C3_continuation_preserves_state_witness :
    (main (some "hook") ⟨some ⟨100, 130, -22⟩, none, some ⟨25, 25⟩⟩
      (.content (.obj [("is_crash", .bool true),
        ("first_detected", .str "2024-12-31T09:00:00"),
        ("last_checked", .str "2024-12-31T09:00:00")]))
      "2025-01-01T00:00:00").finalFile
      = save_state (.obj [("is_crash", .bool true),
          ("first_detected", .str "2024-12-31T09:00:00"),
          ("last_checked", .str "2025-01-01T00:00:00")]) := by
  have h := (C3_continuation_preserves_state (some "hook")
    ⟨some ⟨100, 130, -22⟩, none, some ⟨25, 25⟩⟩
    [("is_crash", .bool true), ("first_detected", .str "2024-12-31T09:00:00"),
      ("last_checked", .str "2024-12-31T09:00:00")]
    "2025-01-01T00:00:00" rfl rfl rfl ?_).1
  · rw [h]
    rfl
  · simp only [check_crash_condition]
    rw [if_pos]
    rw [threshold_values.1]
    norm_num

/-- C4: whenever the evaluator does not trigger, the state persisted at run
end is exactly `is_crash` false, `first_detected` null, `last_checked` the
current time — any prior `first_detected` is reset — and no notification
is sent. -/
theorem C4_recovery_resets_state (webhook : Option String) (data : MarketData)
    (file : FileState) (now : String)
    (hw : webhookFalsy webhook = false) (hd : data.isEmpty = false)
    (_hobj : ∃ kvs, load_state file = Json.obj kvs)
    (ht : (check_crash_condition data).1 = false) :
    (main webhook data file now).finalFile
      = save_state (.obj [("is_crash", .bool false), ("first_detected", .null),
          ("last_checked", .str now)]) ∧
    (main webhook data file now).notifications = [] := by
  rw [main_run_eq webhook data file now hw hd]
  simp [ht]

/-- C4 witness: recovery from a crash state with a set `first_detected`. -/
theorem C4_recovery_resets_state_witness :
    (main (some "hook") ⟨some ⟨120, 130, -5⟩, none, some ⟨25, 25⟩⟩
      (.content (.obj [("is_crash", .bool true),
        ("first_detected", .str "2024-12-31T09:00:00"),
        ("last_checked", .str "2024-12-31T09:00:00")]))
      "2025-01-01T00:00:00").finalFile
      = save_state (.obj [("is_crash", .bool false), ("first_detected", .null),
          ("last_checked", .str "2025-01-01T00:00:00")]) := by
  have h := C4_recovery_resets_state (some "hook")
    ⟨some ⟨120, 130, -5⟩, none, some ⟨25, 25⟩⟩
    (.content (.obj [("is_crash", .bool true),
      ("first_detected", .str "2024-12-31T09:00:00"),
      ("last_checked", .str "2024-12-31T09:00:00")]))
    "2025-01-01T00:00:00" rfl rfl ⟨_, rfl⟩ ?_
  · exact h.1
  · simp only [check_crash_condition]
    rw [if_neg, if_neg]
    · rw [threshold_values.2.1, threshold_values.2.2]
      norm_num
    · rw [threshold_values.1]
      norm_num

/-- C8: when the webhook environment variable is unset or empty, the run
exits with code 1 before the market fetch, posts no notification and
leaves the state file untouched. -/
theorem C8_missing_webhook_exits (webhook : Option String) (data : MarketData)
    (file : FileState) (now : String)
    (h : webhook = none ∨ webhook = some "") :
    (main webhook data file now).exitCode = 1 ∧
    (main webhook data file now).fetched = false ∧
    (main webhook data file now).notifications = [] ∧
    (main webhook data file now).finalFile = file := by
  have hw : webhookFalsy webhook = true := by
    rcases h with h | h <;> subst h <;> rfl
  simp [main, hw]

/-- C8 witness: unset webhook variable. -/
theorem C8_missing_webhook_exits_witness :
    (main none ⟨some ⟨100, 130, -22⟩, none, some ⟨25, 25⟩⟩ .absent
      "2025-01-01T00:00:00").exitCode = 1 ∧
    (main none ⟨some ⟨100, 130, -22⟩, none, some ⟨25, 25⟩⟩ .absent
      "2025-01-01T00:00:00").fetched = false :=
  ⟨(C8_missing_webhook_exits none ⟨some ⟨100, 130, -22⟩, none, some ⟨25, 25⟩⟩
      .absent "2025-01-01T00:00:00" (Or.inl rfl)).1,
   (C8_missing_webhook_exits none ⟨some ⟨100, 130, -22⟩, none, some ⟨25, 25⟩⟩
      .absent "2025-01-01T00:00:00" (Or.inl rfl)).2.1⟩

/-- C9 witness: a parseable object holding only `is_crash` is returned
as-is. -/
theorem C9_load_state_default_and_asis_witness :
    load_state (.content (.obj [("is_crash", .bool true)]))
      = .obj [("is_crash", .bool true)] :=
  C9_load_state_default_and_asis.2.2.2.2.1

end Monitor
